import Mathlib

/-!
Verification of the AdsGram Telegram bot (`src/bot.py`).

A shallow embedding of the bot's pure logic:

* the per-user cooldown gate `cooldown_ok`,
* the ad-fetch classification `fetch_adsgram_ad`,
* the ad-presentation logic of `handle_show_ads` (button rows, text/image
  fallbacks, delivery-failure handling), modelled as a trace of effects,
* the Flask reward endpoint `reward`.

Python dictionary values are modelled by `JVal`; Python truthiness by
`truthy`.  Timestamps (`time.time()`) are modelled by rationals; the map
`_last_ad_at` by a function `Int → Option ℚ` where `none` stands for a user
with no recorded entry (the code reads it with `.get(user_id, 0)`).
-/

/-- A JSON / Python value as the bot's handlers observe it.  The handler code
only ever reads string leaves of the ad dictionary and the truthiness of
values, so arrays and nested objects occurring *as values* are abstracted to
their truthiness (`compound b` is a non-scalar value whose Python truthiness
is `b`). -/
inductive JVal where
  | str (s : String)
  | num (n : Int)
  | boolean (b : Bool)
  | null
  | compound (isTruthy : Bool)
  deriving DecidableEq, Repr

/-- Python truthiness of a `JVal`: `""`, `0`, `False`, `None` and empty
containers are falsy. -/
def truthy : JVal → Bool
  | .str s => !s.isEmpty
  | .num n => n ≠ 0
  | .boolean b => b
  | .null => false
  | .compound b => b

/-- Truthiness of an optional value; Python's `None` (here `none`) is falsy. -/
def truthyO : Option JVal → Bool
  | none => false
  | some v => truthy v

/-- Python's `a or b`: returns `a` when `a` is truthy, otherwise `b`. -/
def pyOr (a b : Option JVal) : Option JVal :=
  if truthyO a then a else b

/-- A parsed JSON object (Python `dict`), in insertion order.  Keys are
unique in a Python dict; lookup returns the first (hence only) match. -/
def AdDict := List (String × JVal)

instance : DecidableEq AdDict := inferInstanceAs (DecidableEq (List (String × JVal)))

/-- Lookup `d.get(k)`: first entry with key `k`, or `none`. -/
def dget : AdDict → String → Option JVal
  | [], _ => none
  | (k', v) :: rest, k => if k' = k then some v else dget rest k

/-- The dict `d` with every entry for key `k` removed (used only to state
"`k` is absent" in theorems; it is not an operation of the source code). -/
def derase (d : AdDict) (k : String) : AdDict :=
  d.filter (fun kv => !(kv.1 = k))

/-- A chain `d.get(a₁) or d.get(a₂) or ... or d.get(aₙ)` of Python `or`s
over an ordered list of alias keys, as the source writes for several fields. -/
def chainGet (d : AdDict) : List String → Option JVal
  | [] => none
  | [a] => dget d a
  | a :: rest => pyOr (dget d a) (chainGet d rest)

/-! ## Rate limiter (`cooldown_ok`, bot.py lines 104-113)

```python
COOLDOWN_SECONDS = 6
_last_ad_at: dict[int, float] = {}  # user_id -> timestamp

def cooldown_ok(user_id: int) -> bool:
    now = time.time()
    last = _last_ad_at.get(user_id, 0)
    if now - last >= COOLDOWN_SECONDS:
        _last_ad_at[user_id] = now
        return True
    return False
```

The wall-clock read `time.time()` becomes an explicit parameter `now`; the
module-level mutable dict becomes an explicit map argument and result. -/

def COOLDOWN_SECONDS : ℚ := 6

/-- The `_last_ad_at` map: `none` models "no entry for this user". -/
def CooldownMap := Int → Option ℚ

/-- Embedding of `cooldown_ok`: returns the admission decision together with the updated
`_last_ad_at` map (updated only on admission).  `(m u).getD 0` is the
source's `last = _last_ad_at.get(user_id, 0)`. -/
def cooldown_ok (m : CooldownMap) (u : Int) (now : ℚ) : Bool × CooldownMap :=
  if now - (m u).getD 0 ≥ COOLDOWN_SECONDS then
    (true, Function.update m u (some now))
  else
    (false, m)

lemma cooldown_ok_grant {m : CooldownMap} {u : Int} {now : ℚ}
    (h : now - (m u).getD 0 ≥ COOLDOWN_SECONDS) :
    cooldown_ok m u now = (true, Function.update m u (some now)) := by
  unfold cooldown_ok
  rw [if_pos h]

lemma cooldown_ok_deny {m : CooldownMap} {u : Int} {now : ℚ}
    (h : ¬ now - (m u).getD 0 ≥ COOLDOWN_SECONDS) :
    cooldown_ok m u now = (false, m) := by
  unfold cooldown_ok
  rw [if_neg h]

/-- Claim C1: `cooldown_ok` admits iff `now - last ≥ COOLDOWN_SECONDS` where a
missing entry defaults to `0`; it records `now` for the user exactly on
admission and records nothing on denial; a user with no entry is admitted on
their first request (wall-clock timestamps satisfy `COOLDOWN_SECONDS ≤ now`);
after an admitted call at `t`, a second call at `t'` is denied when
`t' - t < COOLDOWN_SECONDS` and admitted when `t' - t ≥ COOLDOWN_SECONDS`. -/
theorem spec_C1 (m : CooldownMap) (u : Int) (t t' : ℚ) :
    ((cooldown_ok m u t).1 = true ↔ COOLDOWN_SECONDS ≤ t - (m u).getD 0)
    ∧ ((cooldown_ok m u t).1 = true →
        (cooldown_ok m u t).2 u = some t ∧ ∀ v, v ≠ u → (cooldown_ok m u t).2 v = m v)
    ∧ ((cooldown_ok m u t).1 = false → (cooldown_ok m u t).2 = m)
    ∧ (m u = none → COOLDOWN_SECONDS ≤ t → (cooldown_ok m u t).1 = true)
    ∧ ((cooldown_ok m u t).1 = true → t' - t < COOLDOWN_SECONDS →
        (cooldown_ok (cooldown_ok m u t).2 u t').1 = false)
    ∧ ((cooldown_ok m u t).1 = true → COOLDOWN_SECONDS ≤ t' - t →
        (cooldown_ok (cooldown_ok m u t).2 u t').1 = true) := by
  by_cases h : t - (m u).getD 0 ≥ COOLDOWN_SECONDS
  · rw [cooldown_ok_grant h]
    refine ⟨by simpa using h, ?_, by simp, fun _ _ => rfl, ?_, ?_⟩
    · intro _
      exact ⟨Function.update_same u (some t) m, fun v hv => Function.update_noteq hv _ m⟩
    · intro _ hlt
      have : ¬ t' - (Function.update m u (some t) u).getD 0 ≥ COOLDOWN_SECONDS := by
        simp only [Function.update_same, Option.getD_some]
        linarith
      rw [cooldown_ok_deny this]
    · intro _ hge
      have : t' - (Function.update m u (some t) u).getD 0 ≥ COOLDOWN_SECONDS := by
        simp only [Function.update_same, Option.getD_some]
        linarith
      rw [cooldown_ok_grant this]
  · rw [cooldown_ok_deny h]
    refine ⟨by simpa using h, by simp, fun _ => rfl, ?_, by simp, by simp⟩
    intro hnone hle
    rw [hnone] at h
    simp only [ge_iff_le, Option.getD_none, sub_zero] at h
    exact absurd hle h

/-- Witness for `spec_C1` at a concrete input: a fresh user admitted at
`t = 10`, then denied at `t' = 13` (3 seconds later, below the 6-second
cooldown). -/
theorem spec_C1_witness :
    (cooldown_ok (fun _ => none) 0 10).1 = true
    ∧ (cooldown_ok (cooldown_ok (fun _ => none) 0 10).2 0 13).1 = false := by
  have h := spec_C1 (fun _ => none) 0 10 13
  have hadm : (cooldown_ok (fun _ => none) 0 10).1 = true :=
    h.2.2.2.1 rfl (by norm_num [COOLDOWN_SECONDS])
  exact ⟨hadm, h.2.2.2.2.1 hadm (by norm_num [COOLDOWN_SECONDS])⟩

/-! ## Ad fetch (`fetch_adsgram_ad`, bot.py lines 115-142)

```python
def fetch_adsgram_ad(tgid: int) -> Optional[dict]:
    try:
        resp = requests.get(url, timeout=10)
    except Exception as e:
        return None
    if resp.status_code != 200:
        logger.warning("AdsGram non-200 response: ...")
        return None
    try:
        data = resp.json()
        if not isinstance(data, dict):
            logger.warning("AdsGram returned non-dict JSON: ...")
            return None
        return data
    except ValueError:
        logger.warning("AdsGram response is not JSON.")
        return None
```

The function is total (every branch returns): it never raises an uncaught
exception.  Its Python return type is `Optional[dict]`, which conflates the
spec's `TransientError` and `NoAd`; `FetchResult` labels each return site
with which branch produced it, following the spec's taxonomy (network
exception and non-200 status are the logged-as-upstream-error branches =
`TransientError`; unparseable or non-dict bodies are the treated-as-no-ad
branches = `NoAd`).  `toOptionDict` recovers the value the Python caller
actually sees. -/

/-- The top-level parse result of an HTTP response body.  The handlers check
only `isinstance(data, dict)` and (for the reward endpoint) truthiness, so a
top-level array is abstracted to whether it is nonempty. -/
inductive JTop where
  | jnull
  | jbool (b : Bool)
  | jnum (n : Int)
  | jstr (s : String)
  | jarr (nonempty : Bool)
  | jobj (fields : List (String × JVal))
  deriving DecidableEq, Repr

/-- Python truthiness of a parsed top-level JSON value. -/
def truthyTop : JTop → Bool
  | .jnull => false
  | .jbool b => b
  | .jnum n => n ≠ 0
  | .jstr s => !s.isEmpty
  | .jarr ne => ne
  | .jobj l => !l.isEmpty

/-- Whether the parsed value is a JSON object (Python `isinstance(data, dict)`). -/
def isObjTop : JTop → Bool
  | .jobj _ => true
  | _ => false

/-- Outcome of the `requests.get` call: either the request raised
(connection error / timeout), or a response arrived with a status code and a
body.  The body is given as its parse result: `none` when `resp.json()`
would raise `ValueError` (empty, HTML, malformed). -/
inductive HttpOutcome where
  | failed
  | response (status : Nat) (body : Option JTop)
  deriving DecidableEq, Repr

/-- Classified result of an ad fetch, labelling the return branches of
`fetch_adsgram_ad` with the spec's taxonomy. -/
inductive FetchResult where
  | transientError
  | noAd
  | adUnit (d : AdDict)
  deriving DecidableEq

/-- The value `fetch_adsgram_ad` actually returns to Python callers:
`None` for both error classes, the parsed dict on success. -/
def toOptionDict : FetchResult → Option AdDict
  | .transientError => none
  | .noAd => none
  | .adUnit d => some d

/-- Embedding of `fetch_adsgram_ad`, branch for branch. -/
def fetch_adsgram_ad : HttpOutcome → FetchResult
  | .failed => .transientError
  | .response status body =>
    if status ≠ 200 then .transientError
    else
      match body with
      | none => .noAd
      | some t =>
        match t with
        | .jobj d => .adUnit d
        | _ => .noAd

/-! ## Ad field extraction and button rows (`handle_show_ads`, bot.py 169-233)

```python
click_url = ad.get("click_url") or ad.get("url") or ad.get("link")
button_name = ad.get("button_name") or "Open"
if click_url:
    buttons.append([InlineKeyboardButton(button_name, url=click_url)])
reward_name = ad.get("button_reward_name")
reward_url = ad.get("reward_url") or ad.get("rewardUrl")
if reward_name and reward_url:
    buttons.append([InlineKeyboardButton(reward_name, url=reward_url)])
text_html = ad.get("text_html") or ad.get("text") or "Sponsored"
image_url = ad.get("image_url") or ad.get("imageUrl")
```
-/

/-- The `or`-chain `ad.get("click_url") or ad.get("url") or ad.get("link")`. -/
def clickUrlOf (d : AdDict) : Option JVal :=
  chainGet d ["click_url", "url", "link"]

/-- The expression `ad.get("button_name") or "Open"`. -/
def buttonNameOf (d : AdDict) : Option JVal :=
  pyOr (dget d "button_name") (some (.str "Open"))

/-- The lookup `ad.get("button_reward_name")`. -/
def rewardNameOf (d : AdDict) : Option JVal :=
  dget d "button_reward_name"

/-- The `or`-chain `ad.get("reward_url") or ad.get("rewardUrl")`. -/
def rewardUrlOf (d : AdDict) : Option JVal :=
  chainGet d ["reward_url", "rewardUrl"]

/-- The expression `ad.get("text_html") or ad.get("text") or "Sponsored"`
(always truthy thanks to the literal default). -/
def textRaw (d : AdDict) : Option JVal :=
  pyOr (chainGet d ["text_html", "text"]) (some (.str "Sponsored"))

/-- The text actually passed to the transport (`textRaw` is always `some`). -/
def textValOf (d : AdDict) : JVal :=
  (textRaw d).getD .null

/-- The `or`-chain `ad.get("image_url") or ad.get("imageUrl")`. -/
def imageUrlOf (d : AdDict) : Option JVal :=
  chainGet d ["image_url", "imageUrl"]

/-- An inline keyboard button: label and URL as passed to
`InlineKeyboardButton(label, url=...)`. -/
def Btn := JVal × JVal

instance : DecidableEq Btn := inferInstanceAs (DecidableEq (JVal × JVal))

/-- The primary-action row: appended iff `click_url` is truthy. -/
def primaryRow (d : AdDict) : List (List Btn) :=
  if truthyO (clickUrlOf d) then
    [[((buttonNameOf d).getD .null, (clickUrlOf d).getD .null)]]
  else []

/-- The reward row: appended iff `reward_name and reward_url` is truthy,
i.e. both are truthy. -/
def rewardRow (d : AdDict) : List (List Btn) :=
  if truthyO (rewardNameOf d) && truthyO (rewardUrlOf d) then
    [[((rewardNameOf d).getD .null, (rewardUrlOf d).getD .null)]]
  else []

/-- The `buttons` list built by `handle_show_ads`: primary row first, then
the reward row, each present only under its condition. -/
def mkButtons (d : AdDict) : List (List Btn) :=
  primaryRow d ++ rewardRow d

/-! ## The ad-request workflow (`handle_show_ads`, bot.py lines 169-233)

The handler is modelled as a pure function from its inputs to the list of
observable effects it performs, in order, plus the updated cooldown map.
The wall clock, the network's answer (what `fetch_adsgram_ad` would
classify) and whether the transport accepts the send (the `try`/`except`
around `send_photo`/`send_message`) are explicit parameters.  The message
strings are the source's literals (as the bytes appear in the file). -/

/-- The notice sent when the cooldown denies. -/
def pleaseWaitMsg : String := "‚è≥ Please wait a few seconds before requesting another ad."

/-- The notice sent when the fetch yields nothing usable. -/
def noAdMsg : String := "‚ö†Ô∏è No ad available right now (or invalid response from ad server). Try again later."

/-- The generic failure notice sent when delivery raises. -/
def deliveryFailMsg : String := "‚ùå Failed to display ad. Please try again later."

/-- An observable effect of the handler, in the order performed:
a `reply_text` to the originating chat, the outbound HTTP fetch, a
`send_photo`/`send_message` dispatch through the transport (with chat id,
media/text, button rows and `protect_content`), or the `logger.exception`
call in the delivery `except` block. -/
inductive Effect where
  | replyText (s : String)
  | fetchCall (userId : Int)
  | sendPhoto (chatId : Int) (photo : JVal) (caption : JVal)
      (buttons : List (List Btn)) (protectContent : Bool)
  | sendMessage (chatId : Int) (text : JVal)
      (buttons : List (List Btn)) (protectContent : Bool)
  | logSendFailure
  deriving DecidableEq

/-- Whether an effect is a transport dispatch (the Ad Presenter acting). -/
def isSendEffect : Effect → Bool
  | .sendPhoto _ _ _ _ _ => true
  | .sendMessage _ _ _ _ => true
  | _ => false

/-- The dispatch the handler attempts for a (non-empty) parsed ad `d`:
photo-with-caption when `image_url` is truthy, plain text otherwise; both
with the built button rows and `protect_content=True`. -/
def sendEffect (u : Int) (d : AdDict) : Effect :=
  if truthyO (imageUrlOf d) then
    .sendPhoto u ((imageUrlOf d).getD .null) (textValOf d) (mkButtons d) true
  else
    .sendMessage u (textValOf d) (mkButtons d) true

/-- Embedding of `handle_show_ads`.  `fetch` is the classification the ad
network's answer would receive; `sendOk` is whether the transport accepts
the dispatch (`false` models the `except` path).  Note the source's
`if not ad:` is a Python falsiness test on an `Optional[dict]`, so it
catches both `None` and the empty dict. -/
def handle_show_ads (m : CooldownMap) (u : Int) (now : ℚ)
    (fetch : FetchResult) (sendOk : Bool) : List Effect × CooldownMap :=
  let c := cooldown_ok m u now
  if c.1 = false then
    ([.replyText pleaseWaitMsg], c.2)
  else
    match toOptionDict fetch with
    | none => ([.fetchCall u, .replyText noAdMsg], c.2)
    | some d =>
      if d.isEmpty then ([.fetchCall u, .replyText noAdMsg], c.2)
      else if sendOk then ([.fetchCall u, sendEffect u d], c.2)
      else ([.fetchCall u, sendEffect u d, .logSendFailure, .replyText deliveryFailMsg], c.2)

/-! ## Reward endpoint (`reward`, bot.py lines 70-95)

```python
@flask_app.route("/reward/<int:user_id>", methods=["GET", "POST"])
def reward(user_id: int):
    try:
        data = {}
        if request.method == "POST":
            try:
                data = request.get_json(force=True, silent=True) or {}
            except Exception:
                data = {}
        data.update(request.args.to_dict())
        logger.info(...)
        return jsonify({"status": "ok"}), 200
    except Exception as e:
        logger.exception(...)
        return jsonify({"status": "error", "message": str(e)}), 500
```

`request.get_json(force=True, silent=True)` is modelled by its outcome
`body : Option JTop` (`none` for a missing or unparseable body).  The
`or {}` replaces a falsy parse result by the empty dict; a *truthy*
non-dict parse result flows into `data.update(...)`, which raises
`AttributeError` and is caught by the outer handler, producing the 500
response.  Query params arrive already collapsed by `to_dict()` as a
string-to-string list. -/

/-- HTTP method of the reward request. -/
inductive HttpMethod where
  | get
  | post
  deriving DecidableEq

/-- Response of the reward endpoint: HTTP 200 with the logged payload, or
the HTTP 500 internal-error response (whose body carries only the exception
message, abstracted away). -/
inductive RewardResponse where
  | ok (payload : List (String × JVal))
  | serverError
  deriving DecidableEq

/-- The HTTP status code of a reward response. -/
def statusOf : RewardResponse → Nat
  | .ok _ => 200
  | .serverError => 500

/-- Python `m[k] = v` on a dict in insertion order: overwrite the existing
entry in place, else append. -/
def setk : List (String × JVal) → String → JVal → List (String × JVal)
  | [], k, v => [(k, v)]
  | (k', v') :: rest, k, v =>
    if k' = k then (k', v) :: rest else (k', v') :: setk rest k v

/-- Python `base.update(upd)`: assign each entry of `upd` into `base` in
order. -/
def dictUpdate (base : List (String × JVal)) (upd : List (String × JVal)) :
    List (String × JVal) :=
  upd.foldl (fun acc kv => setk acc kv.1 kv.2) base

/-- Query parameters (`request.args.to_dict()`) as a dict payload, each
value a JSON string. -/
def argsPayload (args : List (String × String)) : List (String × JVal) :=
  args.map (fun kv => (kv.1, JVal.str kv.2))

/-- Embedding of the `reward` endpoint (the `userId` from the URL path is
only logged alongside the payload). -/
def reward (_userId : Int) (method : HttpMethod) (body : Option JTop)
    (args : List (String × String)) : RewardResponse :=
  match method with
  | .get => .ok (dictUpdate [] (argsPayload args))
  | .post =>
    match body with
    | none => .ok (dictUpdate [] (argsPayload args))
    | some v =>
      if truthyTop v = false then .ok (dictUpdate [] (argsPayload args))
      else
        match v with
        | .jobj fields => .ok (dictUpdate fields (argsPayload args))
        | _ => .serverError

/-! ## Claims C4 and C3 -/

/-- Counterexample to claim C4 as stated: the code tests `status_code != 200`,
not "non-2xx", so a *201* response whose body parses as a JSON object is
classified as a transient error, where the claim requires an `AdUnit`. -/
theorem spec_C4_counterexample :
    fetch_adsgram_ad
      (.response 201 (some (.jobj [("click_url", JVal.str "https://x")])))
      = .transientError
    ∧ fetch_adsgram_ad
      (.response 201 (some (.jobj [("click_url", JVal.str "https://x")])))
      ≠ .adUnit [("click_url", JVal.str "https://x")] := by
  exact ⟨rfl, by decide⟩

/-- Claim C4, amended ("2xx" tightened to "exactly 200"): a non-200 status
(in particular 404 and 500, but also 201) yields `TransientError`; a 200
status whose body is unparseable or parses to a non-object yields `NoAd`; a
200 status whose body parses as a JSON object yields the ad unit.  A raised
request (timeout / connection error) also yields `TransientError`.  The total
Lean function covers every case: no branch raises. -/
theorem spec_C4 (status : Nat) (body : Option JTop) :
    (status ≠ 200 → fetch_adsgram_ad (.response status body) = .transientError)
    ∧ fetch_adsgram_ad (.response 200 none) = .noAd
    ∧ (∀ v : JTop, isObjTop v = false →
        fetch_adsgram_ad (.response 200 (some v)) = .noAd)
    ∧ (∀ fields, fetch_adsgram_ad (.response 200 (some (.jobj fields)))
        = .adUnit fields)
    ∧ fetch_adsgram_ad .failed = .transientError := by
  refine ⟨?_, rfl, ?_, fun fields => rfl, rfl⟩
  · intro h
    simp [fetch_adsgram_ad, h]
  · intro v hv
    cases v <;> simp_all [fetch_adsgram_ad, isObjTop]

/-- Witness for `spec_C4`: a 404 response is a transient error; a 200
response whose body is a non-empty JSON array is no-ad. -/
theorem spec_C4_witness :
    fetch_adsgram_ad (.response 404 none) = .transientError
    ∧ fetch_adsgram_ad (.response 200 (some (.jarr true))) = .noAd :=
  ⟨(spec_C4 404 none).1 (by decide),
   (spec_C4 200 (some (.jarr true))).2.2.1 (.jarr true) rfl⟩

lemma cooldown_ok_eq_deny {m : CooldownMap} {u : Int} {now : ℚ}
    (h : (cooldown_ok m u now).1 = false) : cooldown_ok m u now = (false, m) := by
  by_cases hc : now - (m u).getD 0 ≥ COOLDOWN_SECONDS
  · rw [cooldown_ok_grant hc] at h
    simp at h
  · exact cooldown_ok_deny hc

lemma cooldown_ok_eq_grant {m : CooldownMap} {u : Int} {now : ℚ}
    (h : (cooldown_ok m u now).1 = true) :
    cooldown_ok m u now = (true, Function.update m u (some now)) := by
  by_cases hc : now - (m u).getD 0 ≥ COOLDOWN_SECONDS
  · exact cooldown_ok_grant hc
  · rw [cooldown_ok_deny hc] at h
    simp at h

/-- Claim C3: when the cooldown denies, the handler emits only the
please-wait notice (in particular the ad client is never invoked and the
cooldown map is unchanged); when the cooldown admits but the fetch
classifies as `NoAd` or `TransientError`, the handler performs the fetch and
then emits only the no-ad notice (no transport dispatch, hence no message
with buttons); and a transport dispatch occurs in the trace only when the
fetch produced an ad unit. -/
theorem spec_C3 (m : CooldownMap) (u : Int) (now : ℚ)
    (fetch : FetchResult) (sendOk : Bool) :
    ((cooldown_ok m u now).1 = false →
      handle_show_ads m u now fetch sendOk = ([.replyText pleaseWaitMsg], m))
    ∧ ((cooldown_ok m u now).1 = true →
        fetch = .noAd ∨ fetch = .transientError →
      handle_show_ads m u now fetch sendOk
        = ([.fetchCall u, .replyText noAdMsg], (cooldown_ok m u now).2))
    ∧ (∀ e ∈ (handle_show_ads m u now fetch sendOk).1, isSendEffect e = true →
        ∃ d, fetch = .adUnit d) := by
  refine ⟨?_, ?_, ?_⟩
  · intro h
    have := cooldown_ok_eq_deny h
    simp [handle_show_ads, this]
  · intro h hf
    rcases hf with hf | hf <;> subst hf <;> simp [handle_show_ads, h, toOptionDict]
  · intro e he hsend
    by_cases h : (cooldown_ok m u now).1 = false
    · simp [handle_show_ads, h] at he
      subst he
      simp [isSendEffect] at hsend
    · cases fetch with
      | transientError =>
        simp [handle_show_ads, h, toOptionDict] at he
        rcases he with he | he <;> subst he <;> simp [isSendEffect] at hsend
      | noAd =>
        simp [handle_show_ads, h, toOptionDict] at he
        rcases he with he | he <;> subst he <;> simp [isSendEffect] at hsend
      | adUnit d => exact ⟨d, rfl⟩

/-- Witness for `spec_C3`: a fresh user at time 10 is admitted, the fetch
classifies as no-ad, and the handler emits exactly the fetch call and the
no-ad notice. -/
theorem spec_C3_witness :
    handle_show_ads (fun _ => none) 1 10 .noAd true
      = ([.fetchCall 1, .replyText noAdMsg], (cooldown_ok (fun _ => none) 1 10).2) :=
  (spec_C3 (fun _ => none) 1 10 .noAd true).2.1
    (by norm_num [cooldown_ok, COOLDOWN_SECONDS]) (Or.inl rfl)

/-! ## Claims C5, C6, C9 -/

/-- Claim C5: the primary-action row is present iff the alias chain
`click_url` / `url` / `link` yields a truthy value (first truthy alias wins,
witnessed by the two alias-order conjuncts), labelled `button_name` or the
default `"Open"`; the reward row is present iff both `button_reward_name`
and the reward-URL chain are truthy.  Concretely, a dict with only
`click_url` set yields exactly one primary row labelled `"Open"`, and a
dict with only `button_reward_name` set yields no rows at all. -/
theorem spec_C5 (d : AdDict) :
    (primaryRow d ≠ [] ↔ truthyO (clickUrlOf d) = true)
    ∧ (truthyO (dget d "click_url") = true → clickUrlOf d = dget d "click_url")
    ∧ (truthyO (dget d "click_url") = false → truthyO (dget d "url") = true →
        clickUrlOf d = dget d "url")
    ∧ (truthyO (dget d "button_name") = false → truthyO (clickUrlOf d) = true →
        primaryRow d = [[(JVal.str "Open", (clickUrlOf d).getD .null)]])
    ∧ (rewardRow d ≠ [] ↔
        truthyO (rewardNameOf d) = true ∧ truthyO (rewardUrlOf d) = true)
    ∧ mkButtons [("click_url", JVal.str "https://x")]
        = [[(JVal.str "Open", JVal.str "https://x")]]
    ∧ mkButtons [("button_reward_name", JVal.str "Claim")] = [] := by
  refine ⟨?_, ?_, ?_, ?_, ?_, by decide, by decide⟩
  · by_cases ht : truthyO (clickUrlOf d) = true <;> simp [primaryRow, ht]
  · intro h
    simp [clickUrlOf, chainGet, pyOr, h]
  · intro h1 h2
    simp [clickUrlOf, chainGet, pyOr, h1, h2]
  · intro h1 h2
    simp [primaryRow, buttonNameOf, pyOr, h1, h2]
  · by_cases h1 : truthyO (rewardNameOf d) = true <;>
      by_cases h2 : truthyO (rewardUrlOf d) = true <;>
      simp [rewardRow, h1, h2]

/-- Witness for `spec_C5`: with only the second alias `url` set, the chain
selects it; with `click_url` set, the chain selects `click_url`. -/
theorem spec_C5_witness :
    clickUrlOf [("url", JVal.str "https://y")]
      = dget [("url", JVal.str "https://y")] "url"
    ∧ clickUrlOf [("click_url", JVal.str "https://x")]
      = dget [("click_url", JVal.str "https://x")] "click_url" :=
  ⟨(spec_C5 [("url", JVal.str "https://y")]).2.2.1 (by decide) (by decide),
   (spec_C5 [("click_url", JVal.str "https://x")]).2.1 (by decide)⟩

/-- Counterexample to claim C6 as stated: the parsed object
`[("foo", "bar")]` has no text under either alias, no image URL, no
click-through URL under any alias, and no reward pair — no usable display
content — yet the handler does *not* produce the no-ad notice: it presents a
message with the default text `"Sponsored"` and no buttons, because the
source's `if not ad:` test only catches `None` and the *empty* dict, and the
text normalization always falls back to the literal `"Sponsored"`. -/
theorem spec_C6_counterexample :
    dget [("foo", JVal.str "bar")] "text_html" = none
    ∧ dget [("foo", JVal.str "bar")] "text" = none
    ∧ imageUrlOf [("foo", JVal.str "bar")] = none
    ∧ clickUrlOf [("foo", JVal.str "bar")] = none
    ∧ rewardNameOf [("foo", JVal.str "bar")] = none
    ∧ rewardUrlOf [("foo", JVal.str "bar")] = none
    ∧ (handle_show_ads (fun _ => none) 1 10
        (.adUnit [("foo", JVal.str "bar")]) true).1
        = [.fetchCall 1, .sendMessage 1 (JVal.str "Sponsored") [] true]
    ∧ (handle_show_ads (fun _ => none) 1 10
        (.adUnit [("foo", JVal.str "bar")]) true).1
        ≠ [.fetchCall 1, .replyText noAdMsg] := by
  have h : (cooldown_ok (fun _ => none) 1 10).1 = true := by
    norm_num [cooldown_ok, COOLDOWN_SECONDS]
  have htrace : (handle_show_ads (fun _ => none) 1 10
      (.adUnit [("foo", JVal.str "bar")]) true).1
      = [.fetchCall 1, .sendMessage 1 (JVal.str "Sponsored") [] true] := by
    simp only [handle_show_ads, h, toOptionDict]
    norm_num
    decide
  refine ⟨rfl, rfl, rfl, rfl, rfl, rfl, htrace, ?_⟩
  rw [htrace]
  decide

/-- Claim C6, amended: the no-ad notice is produced exactly when the fetch
yields nothing (`None`) or the parsed object is *empty*; every non-empty
parsed object — usable content or not — is presented, its text defaulting to
`"Sponsored"`. -/
theorem spec_C6 (m : CooldownMap) (u : Int) (now : ℚ) (sendOk : Bool) (d : AdDict) :
    ((cooldown_ok m u now).1 = true →
      (handle_show_ads m u now (.adUnit []) sendOk).1
        = [.fetchCall u, .replyText noAdMsg])
    ∧ ((cooldown_ok m u now).1 = true → d.isEmpty = false →
      (handle_show_ads m u now (.adUnit d) true).1
        = [.fetchCall u, sendEffect u d]) := by
  constructor
  · intro h
    simp [handle_show_ads, h, toOptionDict]
  · intro h hd
    simp [handle_show_ads, h, toOptionDict, hd]

/-- Witness for `spec_C6`: for an admitted user, the empty parsed object
yields the no-ad notice. -/
theorem spec_C6_witness :
    (handle_show_ads (fun _ => none) 1 10 (.adUnit []) true).1
      = [.fetchCall 1, .replyText noAdMsg] :=
  (spec_C6 (fun _ => none) 1 10 true []).1
    (by norm_num [cooldown_ok, COOLDOWN_SECONDS])

/-- Claim C9: if the transport rejects the dispatch (the `except` path), the
handler still returns normally — the trace shows the attempted dispatch,
then the `logger.exception` call, then the fixed generic failure notice.
The notice is a constant string, independent of the exception, so the user
never sees a stack trace or raw error. -/
theorem spec_C9 (m : CooldownMap) (u : Int) (now : ℚ) (d : AdDict) :
    (cooldown_ok m u now).1 = true → d.isEmpty = false →
    (handle_show_ads m u now (.adUnit d) false).1
      = [.fetchCall u, sendEffect u d, .logSendFailure,
         .replyText deliveryFailMsg] := by
  intro h hd
  simp [handle_show_ads, h, toOptionDict, hd]

/-- Witness for `spec_C9`: a concrete ad with an image URL whose dispatch
fails ends in the logged exception and the generic failure reply. -/
theorem spec_C9_witness :
    (handle_show_ads (fun _ => none) 1 10
      (.adUnit [("image_url", JVal.str "https://img")]) false).1
      = [.fetchCall 1, sendEffect 1 [("image_url", JVal.str "https://img")],
         .logSendFailure, .replyText deliveryFailMsg] :=
  spec_C9 (fun _ => none) 1 10 [("image_url", JVal.str "https://img")]
    (by norm_num [cooldown_ok, COOLDOWN_SECONDS]) (by decide)

/-! ## Claims C7 and C8 -/

/-- The last value assigned to key `k` by the entries of `upd`, in Python
`update` order (later entries win). -/
def lastLookup : List (String × JVal) → String → Option JVal
  | [], _ => none
  | (k', v) :: rest, k =>
    match lastLookup rest k with
    | some w => some w
    | none => if k' = k then some v else none

lemma dget_setk (m : List (String × JVal)) (k : String) (v : JVal) (j : String) :
    dget (setk m k v) j = if k = j then some v else dget m j := by
  induction m with
  | nil =>
    by_cases h : k = j <;> simp [setk, dget, h]
  | cons kv rest ih =>
    obtain ⟨k', v'⟩ := kv
    by_cases h1 : k' = k
    · subst h1
      by_cases h2 : k' = j <;> simp [setk, dget, h2]
    · by_cases h2 : k' = j
      · subst h2
        have h1' : ¬ k = k' := fun h => h1 h.symm
        simp [setk, dget, h1, h1']
      · simp [setk, dget, h1, h2, ih]

lemma dget_dictUpdate (upd base : List (String × JVal)) (k : String) :
    dget (dictUpdate base upd) k
      = match lastLookup upd k with
        | some v => some v
        | none => dget base k := by
  induction upd generalizing base with
  | nil => simp [dictUpdate, lastLookup]
  | cons kv rest ih =>
    obtain ⟨k', v'⟩ := kv
    have hstep : dictUpdate base ((k', v') :: rest)
        = dictUpdate (setk base k' v') rest := rfl
    rw [hstep, ih]
    cases hl : lastLookup rest k with
    | some w => simp [lastLookup, hl]
    | none =>
      by_cases h : k' = k <;> simp [lastLookup, hl, dget_setk, h]

/-- Counterexample to claim C7 as stated: the claim covers "GET or POST",
but the source reads the JSON body only when `request.method == "POST"`.  A
GET request to `/reward/42` carrying the JSON object body `{"amount":"5"}`
and no query parameters is logged with the *empty* payload, not with
`{"amount":"5"}` as the claim's merge requires. -/
theorem spec_C7_counterexample :
    reward 42 .get (some (.jobj [("amount", JVal.str "5")])) [] = .ok []
    ∧ reward 42 .get (some (.jobj [("amount", JVal.str "5")])) []
        ≠ .ok [("amount", JVal.str "5")] := by
  exact ⟨rfl, by decide⟩

/-- Claim C7, amended ("GET or POST" restricted to POST for the body): for a
POST whose body parses as a JSON object, the logged payload is the body
updated with the query parameters, with query parameters taking precedence
on key collision (last-write-wins, shown by `lastLookup`); for a GET the
body is ignored and the payload is the query parameters alone; and POST
`/reward/42` with body `{"amount":"5"}` and no query parameters returns 200
with payload `{"amount":"5"}`. -/
theorem spec_C7 (u : Int) (fields : List (String × JVal))
    (args : List (String × String)) (body : Option JTop) :
    reward u .post (some (.jobj fields)) args
      = .ok (dictUpdate fields (argsPayload args))
    ∧ (∀ k, dget (dictUpdate fields (argsPayload args)) k
        = match lastLookup (argsPayload args) k with
          | some v => some v
          | none => dget fields k)
    ∧ reward u .get body args = .ok (dictUpdate [] (argsPayload args))
    ∧ reward 42 .post (some (.jobj [("amount", JVal.str "5")])) []
        = .ok [("amount", JVal.str "5")]
    ∧ statusOf (reward 42 .post (some (.jobj [("amount", JVal.str "5")])) [])
        = 200 := by
  refine ⟨?_, fun k => dget_dictUpdate _ _ _, rfl, rfl, rfl⟩
  by_cases h : fields = []
  · subst h
    rfl
  · simp [reward, truthyTop, h]

/-- Claim C8: a missing or unparseable body (both reach the handler as a
`None` parse result thanks to `silent=True`) is treated as the empty
payload and acknowledged with 200 — never a client-error status; any falsy
parse result likewise degrades to the empty payload; and a 500 arises only
from the internal `data.update` fault on a truthy non-object body of a
POST, never from malformed input. -/
theorem spec_C8 (u : Int) (method : HttpMethod) (body : Option JTop)
    (args : List (String × String)) :
    reward u method none args = .ok (dictUpdate [] (argsPayload args))
    ∧ statusOf (reward u method none args) = 200
    ∧ (∀ v, truthyTop v = false →
        reward u method (some v) args = .ok (dictUpdate [] (argsPayload args)))
    ∧ (statusOf (reward u method body args) = 500 →
        method = .post
        ∧ ∃ v, body = some v ∧ truthyTop v = true ∧ isObjTop v = false) := by
  refine ⟨?_, ?_, ?_, ?_⟩
  · cases method <;> rfl
  · cases method <;> rfl
  · intro v hv
    cases method
    · rfl
    · simp [reward, hv]
  · intro h500
    cases method with
    | get => simp [reward, statusOf] at h500
    | post =>
      refine ⟨rfl, ?_⟩
      cases body with
      | none => simp [reward, statusOf] at h500
      | some v =>
        refine ⟨v, rfl, ?_, ?_⟩
        · by_cases hv : truthyTop v = false
          · simp [reward, hv, statusOf] at h500
          · simpa using hv
        · cases v with
          | jobj fields =>
            exfalso
            by_cases hf : fields = [] <;>
              simp [reward, statusOf, truthyTop, hf] at h500
          | jnull => rfl
          | jbool b => rfl
          | jnum n => rfl
          | jstr s => rfl
          | jarr ne => rfl

/-- Witness for `spec_C8`: a POST whose body parses to the falsy JSON value
`0` is acknowledged with the query parameters as payload. -/
theorem spec_C8_witness :
    reward 7 .post (some (.jnum 0)) [("a", "1")] = .ok [("a", JVal.str "1")] := by
  have h := (spec_C8 7 .post (some (.jnum 0)) [("a", "1")]).2.2.1 (.jnum 0) rfl
  exact h

/-! ## Claim C10

Python's `x or y` skips `x` whenever `x` is falsy, and `None` (absent key)
and `""` (present but empty) are both falsy, so the extraction chains treat
them identically.  `obs` is the "observation" a chain makes of a value: the
value itself when truthy, nothing otherwise. -/

/-- The observable part of an optional value: itself if truthy, else `none`. -/
def obs (o : Option JVal) : Option JVal :=
  if truthyO o then o else none

lemma truthyO_obs (o : Option JVal) : truthyO (obs o) = truthyO o := by
  unfold obs
  by_cases h : truthyO o <;> simp_all [truthyO]

lemma obs_pyOr (a b : Option JVal) : obs (pyOr a b) = pyOr (obs a) (obs b) := by
  unfold pyOr
  by_cases h : truthyO a <;> simp [h, truthyO_obs]

lemma obs_eq_elim {a b : Option JVal} (h : obs a = obs b) :
    truthyO a = truthyO b ∧ (truthyO a = true → a = b) := by
  have ht : truthyO a = truthyO b := by
    rw [← truthyO_obs a, ← truthyO_obs b, h]
  refine ⟨ht, fun hta => ?_⟩
  have : obs a = a := by simp [obs, hta]
  have hb : obs b = b := by simp [obs, ← ht, hta]
  rw [← this, h, hb]

lemma pyOr_congr_obs {a b : Option JVal} (c : Option JVal) (h : obs a = obs b) :
    pyOr a c = pyOr b c := by
  obtain ⟨ht, hv⟩ := obs_eq_elim h
  unfold pyOr
  by_cases hta : truthyO a = true
  · rw [hta, ← ht, hta, if_pos rfl, if_pos rfl, hv hta]
  · have htb : truthyO b = false := by rw [← ht]; simpa using hta
    simp [hta, htb]

lemma dget_derase_self (d : AdDict) (k : String) : dget (derase d k) k = none := by
  induction d with
  | nil => rfl
  | cons kv rest ih =>
    obtain ⟨k1, v1⟩ := kv
    by_cases h : k1 = k
    · simpa [derase, List.filter_cons, h] using ih
    · simpa [derase, List.filter_cons, h, dget] using ih

lemma obs_dget_empty (d : AdDict) (k a : String) :
    obs (dget ((k, JVal.str "") :: derase d k) a) = obs (dget (derase d k) a) := by
  by_cases h : k = a
  · subst h
    simp [dget, dget_derase_self, obs, truthyO, truthy]
    decide
  · simp [dget, h]

lemma obs_chainGet (as : List String) (d : AdDict) (k : String) :
    obs (chainGet ((k, JVal.str "") :: derase d k) as)
      = obs (chainGet (derase d k) as) := by
  induction as with
  | nil => rfl
  | cons a rest ih =>
    cases rest with
    | nil => simpa [chainGet] using obs_dget_empty d k a
    | cons b rest' =>
      simp only [chainGet, obs_pyOr, obs_dget_empty, ih]

lemma buttonNameOf_empty (d : AdDict) (k : String) :
    buttonNameOf ((k, JVal.str "") :: derase d k) = buttonNameOf (derase d k) :=
  pyOr_congr_obs _ (obs_dget_empty d k "button_name")

lemma textRaw_empty (d : AdDict) (k : String) :
    textRaw ((k, JVal.str "") :: derase d k) = textRaw (derase d k) :=
  pyOr_congr_obs _ (obs_chainGet ["text_html", "text"] d k)

lemma primaryRow_empty (d : AdDict) (k : String) :
    primaryRow ((k, JVal.str "") :: derase d k) = primaryRow (derase d k) := by
  have hc := obs_eq_elim (obs_chainGet ["click_url", "url", "link"] d k)
  unfold primaryRow clickUrlOf
  rw [hc.1, buttonNameOf_empty]
  by_cases ht : truthyO (chainGet (derase d k) ["click_url", "url", "link"]) = true
  · rw [hc.2 (hc.1.trans ht)]
  · simp [ht]

lemma rewardRow_empty (d : AdDict) (k : String) :
    rewardRow ((k, JVal.str "") :: derase d k) = rewardRow (derase d k) := by
  have hn := obs_eq_elim (obs_dget_empty d k "button_reward_name")
  have hu := obs_eq_elim (obs_chainGet ["reward_url", "rewardUrl"] d k)
  unfold rewardRow rewardNameOf rewardUrlOf
  rw [hn.1, hu.1]
  by_cases h1 : truthyO (dget (derase d k) "button_reward_name") = true
  · by_cases h2 : truthyO (chainGet (derase d k) ["reward_url", "rewardUrl"]) = true
    · rw [hn.2 (hn.1.trans h1), hu.2 (hu.1.trans h2)]
    · simp [h1, h2]
  · simp [h1]

lemma mkButtons_empty (d : AdDict) (k : String) :
    mkButtons ((k, JVal.str "") :: derase d k) = mkButtons (derase d k) := by
  unfold mkButtons
  rw [primaryRow_empty, rewardRow_empty]

lemma sendEffect_empty (u : Int) (d : AdDict) (k : String) :
    sendEffect u ((k, JVal.str "") :: derase d k) = sendEffect u (derase d k) := by
  have hi := obs_eq_elim (obs_chainGet ["image_url", "imageUrl"] d k)
  unfold sendEffect imageUrlOf textValOf
  rw [hi.1, textRaw_empty, mkButtons_empty]
  by_cases ht : truthyO (chainGet (derase d k) ["image_url", "imageUrl"]) = true
  · rw [hi.2 (hi.1.trans ht)]
  · simp [ht]

/-- Claim C10: the presented message (buttons, text, image choice) is
identical whether a key holds the empty string or is absent altogether —
the next alias or the default takes over, because the extractions chain the
`.get` probes with Python `or` — and the text falls back through
`text_html`, then `text`, then the literal `"Sponsored"`. -/
theorem spec_C10 (u : Int) (d : AdDict) (k : String) :
    sendEffect u ((k, JVal.str "") :: derase d k) = sendEffect u (derase d k)
    ∧ mkButtons ((k, JVal.str "") :: derase d k) = mkButtons (derase d k)
    ∧ (truthyO (dget d "text_html") = true →
        textValOf d = (dget d "text_html").getD .null)
    ∧ (truthyO (dget d "text_html") = false → truthyO (dget d "text") = true →
        textValOf d = (dget d "text").getD .null)
    ∧ (truthyO (dget d "text_html") = false → truthyO (dget d "text") = false →
        textValOf d = JVal.str "Sponsored") := by
  refine ⟨sendEffect_empty u d k, mkButtons_empty d k, ?_, ?_, ?_⟩
  · intro h
    have hc : chainGet d ["text_html", "text"] = dget d "text_html" := by
      simp [chainGet, pyOr, h]
    simp [textValOf, textRaw, hc, pyOr, h]
  · intro h1 h2
    have hc : chainGet d ["text_html", "text"] = dget d "text" := by
      simp [chainGet, pyOr, h1]
    simp [textValOf, textRaw, hc, pyOr, h2]
  · intro h1 h2
    have hc : chainGet d ["text_html", "text"] = dget d "text" := by
      simp [chainGet, pyOr, h1]
    simp [textValOf, textRaw, hc, pyOr, h2]

/-- Witness for `spec_C10`: with `text_html` absent and `text` set, the text
falls back to the `text` value; with a key present-but-empty, the send
effect equals the absent-key one at a concrete dict. -/
theorem spec_C10_witness :
    textValOf [("text", JVal.str "hello")] = JVal.str "hello"
    ∧ sendEffect 1 [("text_html", JVal.str ""), ("text", JVal.str "hi")]
        = sendEffect 1 [("text", JVal.str "hi")] := by
  have h := spec_C10 1 [("text_html", JVal.str ""), ("text", JVal.str "hi")] "text_html"
  have h2 := (spec_C10 1 [("text", JVal.str "hello")] "x").2.2.2.1 rfl rfl
  exact ⟨h2, h.1⟩
